import Mathlib

/-!
Verification of `streamlit_frontend.py` (Competitive Coding Progress Tracker).

The file shallowly embeds the frontend's data handling: pandas numeric cells
(including NaN and infinities produced by elementwise division), the
schema-drift fallbacks for derived rate columns, the text/category filters,
the leaderboard sort, the Problems filter pipeline, the form identifier
resolution, and the transactional write path.  Machine floats are idealised
as rationals; NaN/±inf are modelled explicitly where the code can produce
them (elementwise division in the Tag Analysis fallback).
-/

namespace CPTracker

/-- A pandas numeric cell: a finite value (idealised as a rational), NaN, or
a signed infinity.  NaN arises from `0/0` and from SQL NULLs; infinities from
`x/0` with `x ≠ 0`. -/
inductive PFloat where
  | val (q : ℚ)
  | pinf
  | ninf
  | nan
  deriving DecidableEq, Repr

/-- Elementwise pandas/numpy true division on numeric cells:
`0/0 = NaN`, `x/0 = ±inf` for `x ≠ 0`, NaN propagates, finite`/±inf = 0`,
`±inf/finite` keeps a sign, `±inf/±inf = NaN`. -/
def pdDiv : PFloat → PFloat → PFloat
  | .nan, _ => .nan
  | .val _, .nan => .nan
  | .pinf, .nan => .nan
  | .ninf, .nan => .nan
  | .val a, .val b =>
      if b = 0 then (if a = 0 then .nan else if 0 < a then .pinf else .ninf)
      else .val (a / b)
  | .val _, .pinf => .val 0
  | .val _, .ninf => .val 0
  | .pinf, .val b => if b < 0 then .ninf else .pinf
  | .ninf, .val b => if b < 0 then .pinf else .ninf
  | .pinf, .pinf => .nan
  | .pinf, .ninf => .nan
  | .ninf, .pinf => .nan
  | .ninf, .ninf => .nan

/-- Pandas `Series.fillna(d)`: replace NaN by `d`, leave every other cell alone. -/
def fillna (d : ℚ) : PFloat → PFloat
  | .nan => .val d
  | x => x

/-- Multiplication of a cell by the literal 100 (as in `... * 100`). -/
def mul100 : PFloat → PFloat
  | .val q => .val (q * 100)
  | .pinf => .pinf
  | .ninf => .ninf
  | .nan => .nan

/-- Tag Analysis derived column, line 261-263 of the source:
`(accepted_submissions / total_submissions).fillna(0) * 100`. -/
def tagPandasRate (accepted total : PFloat) : PFloat :=
  mul100 (fillna 0 (pdDiv accepted total))

/-- Python's banker's rounding of a rational to the nearest integer:
round half to even. -/
def roundHalfEven (q : ℚ) : ℤ :=
  let n : ℤ := ⌊q⌋
  let r : ℚ := q - n
  if r < 1 / 2 then n
  else if 1 / 2 < r then n + 1
  else if Even n then n else n + 1

/-- Python's `round(x, 2)`: round to two decimal places, ties to even. -/
def round2 (q : ℚ) : ℚ :=
  (roundHalfEven (q * 100) : ℚ) / 100

/-- Dashboard global accept rate, line 91 of the source:
`round((accepted_count / subs_count) * 100, 2) if subs_count else 0`. -/
def dashboardRate (accepted subs : ℕ) : ℚ :=
  if subs = 0 then 0 else round2 ((accepted : ℚ) / (subs : ℚ) * 100)

/-- The spec's derivation rule, stated from its own words for comparison with
the code: compute the derived column from its two source columns as
`accepted/total * 100`, defaulting to 0 when total is zero or missing. -/
def specDerivedRate : PFloat → PFloat → PFloat
  | .val a, .val t => if t = 0 then .val 0 else .val (a / t * 100)
  | _, _ => .val 0

/-- A row of `SELECT * FROM vw_leaderboard`.  The view's schema is external;
the columns the code touches are `username` (line 139), `accuracy` (lines
142-146) and `total_solved` (lines 145, 150-152).  The last two fields model
the source columns the spec posits for a derived accuracy; the code never
reads them. -/
structure LBRow where
  username : Option String
  total_solved : ℚ
  accuracy : ℚ
  accepted_submissions : PFloat
  total_submissions : PFloat
  deriving DecidableEq, Repr

/-- The leaderboard frame together with whether the external view supplied an
`accuracy` column (when it did not, the per-row `accuracy` field is junk that
the fallback overwrites). -/
structure LBFrame where
  rows : List LBRow
  hasAccuracy : Bool
  deriving DecidableEq, Repr

/-- Lines 142-143: `if "accuracy" not in lb_df.columns: lb_df["accuracy"] = 0`. -/
def lbAccuracyFallback (t : LBFrame) : LBFrame :=
  if t.hasAccuracy then t
  else { rows := t.rows.map fun r => { r with accuracy := 0 }, hasAccuracy := true }

/-- A row of `SELECT * FROM vw_tag_summary`; column presence is tracked on the
frame. -/
structure TagRow where
  tag_name : Option String
  accepted_submissions : PFloat
  total_submissions : PFloat
  accepted_rate : PFloat
  deriving DecidableEq, Repr

/-- The tag-summary frame with flags for the columns whose presence lines
259-260 of the source test. -/
structure TagFrame where
  rows : List TagRow
  hasRate : Bool
  hasAcceptedCol : Bool
  hasTotalCol : Bool
  deriving DecidableEq, Repr

/-- Lines 259-265: compute `accepted_rate` if missing — from the two source
columns when both are present, otherwise the constant 0. -/
def tagRateFallback (t : TagFrame) : TagFrame :=
  if t.hasRate then t
  else if t.hasAcceptedCol && t.hasTotalCol then
    { t with
      rows := t.rows.map fun r =>
        { r with accepted_rate := tagPandasRate r.accepted_submissions r.total_submissions }
      hasRate := true }
  else
    { t with rows := t.rows.map fun r => { r with accepted_rate := .val 0 }, hasRate := true }

/-- A compiled pattern token of the regular-expression fragment the filters
use: `none` is the wildcard `.` metacharacter, `some c` a literal character.
The search strings of this app are plain text, so only the fragment of
Python `re` built from literals and `.` is modelled. -/
abbrev PatTok := Option Char

/-- Compile a search string the way `re.compile` treats a pattern consisting
of literals and `.` (the pandas `str.contains` default is `regex=True`). -/
def parsePat (s : String) : List PatTok :=
  s.toList.map fun c => if c = '.' then none else some c

/-- One token against one character, under `re.IGNORECASE` (`case=False`);
the wildcard matches any character except a newline. -/
def tokMatch : PatTok → Char → Bool
  | none, c => c ≠ '\n'
  | some a, c => a.toLower = c.toLower

/-- Does the pattern match a prefix of the character list? -/
def matchHere : List PatTok → List Char → Bool
  | [], _ => true
  | _ :: _, [] => false
  | t :: ts, c :: cs => tokMatch t c && matchHere ts cs

/-- Python `re.search` semantics: the pattern matches starting at some position. -/
def reSearch (p : List PatTok) : List Char → Bool
  | [] => matchHere p []
  | c :: cs => matchHere p (c :: cs) || reSearch p cs

/-- Case-insensitive prefix test on raw characters (spec-side notion). -/
def prefixCI : List Char → List Char → Bool
  | [], _ => true
  | _ :: _, [] => false
  | a :: ps, c :: cs => (a.toLower = c.toLower) && prefixCI ps cs

/-- Case-insensitive substring test on raw characters (the spec's
"case-insensitive substring matching"). -/
def substrCI (p : List Char) : List Char → Bool
  | [] => prefixCI p []
  | c :: cs => prefixCI p (c :: cs) || substrCI p cs

/-- Lowercase every character of a list. -/
def lowerList (l : List Char) : List Char :=
  l.map Char.toLower

/-- Python `re` metacharacters; a pattern containing none of these is read
by the regex engine as its literal text. -/
def isMeta (c : Char) : Bool :=
  c = '.' || c = '^' || c = '$' || c = '*' || c = '+' || c = '?' ||
  c = '\x7b' || c = '\x7d' || c = '[' || c = ']' || c = '(' || c = ')' ||
  c = '|' || c = '\\'

/-- Lines 138-139: `lb_df[lb_df["username"].str.contains(search_text,
case=False, na=False)]`, guarded by `if search_text:`.  A null username makes
the row fail the predicate (`na=False`). -/
def leaderboardFilter (searchText : String) (rows : List LBRow) : List LBRow :=
  if searchText = "" then rows
  else rows.filter fun r =>
    match r.username with
    | none => false
    | some u => reSearch (parsePat searchText) u.toList

/-- A row of the Problems join query (lines 161-166). -/
structure PRow where
  problem_id : ℕ
  title : Option String
  difficulty : Option String
  platform_name : Option String
  problem_url : Option String
  deriving DecidableEq, Repr

/-- The title predicate of lines 185-186: `str.contains(search_text,
case=False, na=False)` on the `title` column. -/
def titleHit (searchText : String) (r : PRow) : Bool :=
  match r.title with
  | none => false
  | some t => reSearch (parsePat searchText) t.toList

/-- Lines 185-186 with their `if search_text:` guard. -/
def problemsTitleFilter (searchText : String) (rows : List PRow) : List PRow :=
  if searchText = "" then rows else rows.filter (titleHit searchText)

/-- Lines 169-170: `if selected_platform != "All": p_df =
p_df[p_df["platform_name"] == selected_platform]`.  A null platform never
equals a selected string. -/
def platformFilter (sel : String) (rows : List PRow) : List PRow :=
  if sel = "All" then rows
  else rows.filter fun r => decide (r.platform_name = some sel)

/-- Lines 172-183: when a tag is selected, keep the rows whose `problem_id`
is in the tag-lookup query result. -/
def tagIdFilter (sel : String) (tagIds : List ℕ) (rows : List PRow) : List PRow :=
  if sel = "All" then rows
  else rows.filter fun r => decide (r.problem_id ∈ tagIds)

/-- The whole Problems filter pipeline, lines 167-186: platform equality,
then tag membership, then title search, each skipped at its sentinel. -/
def problemsPipeline (plat tag searchText : String) (tagIds : List ℕ)
    (rows : List PRow) : List PRow :=
  problemsTitleFilter searchText (tagIdFilter tag tagIds (platformFilter plat rows))

/-- Lines 255-256: `if selected_tag != "All": tag_df =
tag_df[tag_df["tag_name"] == selected_tag]`. -/
def tagSummaryFilter (sel : String) (rows : List TagRow) : List TagRow :=
  if sel = "All" then rows
  else rows.filter fun r => decide (r.tag_name = some sel)

/-- The sort key order of lines 145-146: `total_solved` descending, ties
broken by `accuracy` descending.  `lbRel r1 r2` says `r1` may precede `r2`. -/
def lbRel (r1 r2 : LBRow) : Prop :=
  r2.total_solved < r1.total_solved ∨
    (r1.total_solved = r2.total_solved ∧ r2.accuracy ≤ r1.accuracy)

instance : DecidableRel lbRel := fun r1 r2 => by
  unfold lbRel; infer_instance

instance : IsTotal LBRow lbRel := by
  constructor
  intro a b
  rcases lt_trichotomy a.total_solved b.total_solved with h | h | h
  · exact Or.inr (Or.inl h)
  · rcases le_total a.accuracy b.accuracy with h2 | h2
    · exact Or.inr (Or.inr ⟨h.symm, h2⟩)
    · exact Or.inl (Or.inr ⟨h, h2⟩)
  · exact Or.inl (Or.inl h)

instance : IsTrans LBRow lbRel := by
  constructor
  intro a b c hab hbc
  rcases hab with h1 | ⟨h1, h1a⟩ <;> rcases hbc with h2 | ⟨h2, h2a⟩
  · exact Or.inl (h2.trans h1)
  · exact Or.inl (h2 ▸ h1)
  · exact Or.inl (h1 ▸ h2)
  · exact Or.inr ⟨h1.trans h2, h2a.trans h1a⟩

/-- Lines 145-146: `lb_df.sort_values(by=["total_solved", "accuracy"], ascending=[False,
False])` (lines 145-146), modelled by a comparison sort over `lbRel`. -/
def lbSorted (rows : List LBRow) : List LBRow :=
  List.insertionSort lbRel rows

/-- The key order of line 150: `total_solved` descending only. -/
def byTotal (r1 r2 : LBRow) : Prop :=
  r2.total_solved ≤ r1.total_solved

instance : DecidableRel byTotal := fun r1 r2 => by
  unfold byTotal; infer_instance

instance : IsTotal LBRow byTotal := by
  constructor
  intro a b
  rcases le_total a.total_solved b.total_solved with h | h
  · exact Or.inr h
  · exact Or.inl h

instance : IsTrans LBRow byTotal := by
  constructor
  intro a b c hab hbc
  exact hbc.trans hab

/-- Line 150: `top = lb_df.sort_values("total_solved",
ascending=False).head(10)`, applied to the already sorted frame. -/
def topSolvers (rows : List LBRow) : List LBRow :=
  (List.insertionSort byTotal (lbSorted rows)).take 10

/-- A row of the `Users` lookup query of line 209. -/
structure UserRow where
  user_id : ℕ
  username : String
  deriving DecidableEq, Repr

/-- A row of the `Problems` lookup query of line 213. -/
structure ProblemRef where
  problem_id : ℕ
  title : String
  deriving DecidableEq, Repr

/-- Line 211: `users.loc[users["username"] == user, "user_id"].iloc[0]` — the
`user_id` of the first row whose `username` equals the selection; `none`
models the `IndexError` `iloc[0]` raises when no row matches. -/
def resolveUserId (users : List UserRow) (name : String) : Option ℕ :=
  ((users.filter fun r => decide (r.username = name)).head?).map (·.user_id)

/-- Line 215: the `problem_id` of the first row whose `title` equals the
selection. -/
def resolveProblemId (problems : List ProblemRef) (title : String) : Option ℕ :=
  ((problems.filter fun r => decide (r.title = title)).head?).map (·.problem_id)

/-- Bound parameters of the insert of lines 223-231. -/
structure InsertParams where
  uid : ℕ
  pid : ℕ
  verdict : String
  language : String
  notes : String
  deriving DecidableEq, Repr

/-- The submit path of lines 208-231: resolve both display names to
identifiers, then bind exactly those identifiers (plus the form fields) into
the insert statement. -/
def buildSubmissionInsert (users : List UserRow) (problems : List ProblemRef)
    (selUser selProblem verdict lang notes : String) : Option InsertParams := do
  let uid ← resolveUserId users selUser
  let pid ← resolveProblemId problems selProblem
  pure ⟨uid, pid, verdict, lang, notes⟩

/-- A row of the `Submissions` table as the insert of lines 223-231 writes
it (the remaining columns are database defaults). -/
structure SubmissionRow where
  user_id : ℕ
  problem_id : ℕ
  verdict : String
  language : String
  notes : String
  deriving DecidableEq, Repr

/-- The external store, as far as the write path observes it: the
`Submissions` table. -/
structure Store where
  submissions : List SubmissionRow
  deriving DecidableEq, Repr

/-- The `engine.begin()` transactional block used by `run_write` (lines
50-53) and by the Admin action (lines 290-291), per SQLAlchemy's contract:
the statement either succeeds and its new state is committed, or fails, the
transaction is rolled back leaving the state unchanged, and the error (with
the database's message) propagates to the caller. -/
def runWrite (stmt : Store → Except String Store) (s : Store) :
    Store × Option String :=
  match stmt s with
  | .ok s2 => (s2, none)
  | .error e => (s, some e)

/-- Lines 227-234: the submit handler wraps `run_write` in `try`/`except`,
reporting success or `f"Failed to insert submission: {e}"`. -/
def submitOutcome (stmt : Store → Except String Store) (s : Store) :
    Store × String :=
  match runWrite stmt s with
  | (s2, none) => (s2, "Submission recorded — triggers will update counts and audit_log.")
  | (s2, some e) => (s2, "Failed to insert submission: " ++ e)

/-- Lines 288-294: the Admin stored-procedure call inside `engine.begin()`
with its own `try`/`except` message. -/
def adminOutcome (stmt : Store → Except String Store) (s : Store) :
    Store × String :=
  match runWrite stmt s with
  | (s2, none) => (s2, "Stored procedure executed — user_tag_stats updated.")
  | (s2, some e) => (s2, "Failed to run stored procedure: " ++ e)

/-- The successful `INSERT INTO Submissions ...` of lines 223-225: the
database appends the row. -/
def insertSubmission (r : SubmissionRow) : Store → Except String Store :=
  fun s => .ok { submissions := s.submissions ++ [r] }

/-- Reading the `Submissions` table through `query_sql`: a fresh read of the current
store state — `query_sql` (lines 44-48) opens a connection and reads on
every call, with no result cache. -/
def querySubmissions (s : Store) : List SubmissionRow :=
  s.submissions

/-- Elements a render routine can put on the page. -/
inductive El where
  | lbTable (rows : List LBRow)
  | lbChart (top : List LBRow)
  | problemsTable (rows : List PRow)
  | tagTable (rows : List TagRow)
  | metrics (users problems subs : ℕ) (rate : ℚ)
  | rawTable (rows : List (List String))
  | chart (rows : List (List String))
  | errorBox (msg : String)
  deriving DecidableEq, Repr

/-- A rendered page: the elements the routine produced, in order. -/
abbrev Page := List El

/-- The read queries the routines issue, each an `Except` carrying either
the tabular result or the database error raised during the read. -/
structure DB where
  usersCount : Except String ℕ
  problemsCount : Except String ℕ
  subsCount : Except String ℕ
  acceptedCount : Except String ℕ
  recentSubs : Except String (List (List String))
  trend : Except String (List (List String))
  vw_leaderboard : Except String LBFrame
  problemsJoin : Except String (List PRow)
  tagLookup : String → Except String (List ℕ)
  vw_tag_summary : Except String TagFrame
  audit_log : Except String (List (List String))

/-- The Dashboard routine (lines 80-129).  None of its reads is guarded, so
a failing read propagates out of the routine as an uncaught exception
(`Except.error`). -/
def renderDashboard (db : DB) : Except String Page := do
  let u ← db.usersCount
  let p ← db.problemsCount
  let s ← db.subsCount
  let a ← db.acceptedCount
  let recent ← db.recentSubs
  let tr ← db.trend
  pure [El.metrics u p s (dashboardRate a s), El.rawTable recent, El.chart tr]

/-- The Leaderboard routine (lines 134-153): read the view, apply the
username filter, the accuracy fallback, the sort, and chart the top ten
(the chart is skipped when the frame is empty). -/
def renderLeaderboard (db : DB) (searchText : String) : Except String Page := do
  let lb ← db.vw_leaderboard
  let filtered : LBFrame := { lb with rows := leaderboardFilter searchText lb.rows }
  let withAcc := lbAccuracyFallback filtered
  let sorted := lbSorted withAcc.rows
  let top := (List.insertionSort byTotal sorted).take 10
  pure (if top.isEmpty then [El.lbTable sorted]
        else [El.lbTable sorted, El.lbChart top])

/-- The Problems routine (lines 158-189): the join read, the tag-lookup read
when a tag is selected, and the filter pipeline.  Neither read is guarded. -/
def renderProblems (db : DB) (plat tag searchText : String) :
    Except String Page := do
  let rows ← db.problemsJoin
  let r1 := platformFilter plat rows
  let r2 ← if tag = "All" then pure r1
           else do
             let ids ← db.tagLookup tag
             pure (tagIdFilter tag ids r1)
  let r3 := problemsTitleFilter searchText r2
  pure [El.problemsTable r3]

/-- The Tag Analysis routine (lines 251-267): read the view, filter by the
selected tag, apply the accepted-rate fallback.  The read is not guarded.
The bar chart of lines 269-278 re-presents the same frame and is not
modelled. -/
def renderTagAnalysis (db : DB) (tag : String) : Except String Page := do
  let t ← db.vw_tag_summary
  let t1 : TagFrame := { t with rows := tagSummaryFilter tag t.rows }
  let t2 := tagRateFallback t1
  pure [El.tagTable t2.rows]

/-- The Admin audit-log section (lines 297-302): the one read wrapped in
`try`/`except`, surfacing failure as an inline, routine-scoped error box. -/
def renderAdminAudit (db : DB) : Page :=
  match db.audit_log with
  | .ok rows => [El.rawTable rows]
  | .error e => [El.errorBox ("Could not fetch audit log: " ++ e)]

/-- Fixture: a leaderboard row whose frame lacks an accuracy column; the
source columns carry 1 accepted of 2 total. -/
def lbNoAcc : LBRow := ⟨some "alice", 5, 37, .val 1, .val 2⟩

/-- Fixture: a leaderboard row with username "TwoFan". -/
def lbU : LBRow := ⟨some "TwoFan", 1, 0, .val 0, .val 0⟩

/-- Fixture: a leaderboard row with a null username. -/
def lbNull : LBRow := ⟨none, 2, 0, .val 0, .val 0⟩

/-- Fixture: a problem row titled "Two Sum" on LeetCode. -/
def pTwo : PRow := ⟨1, some "Two Sum", some "Easy", some "LeetCode", none⟩

/-- Fixture: a problem row on Codeforces. -/
def pGraph : PRow := ⟨2, some "Graph Paths", some "Hard", some "Codeforces", none⟩

/-- Fixture: a problem row with null text columns. -/
def pNull : PRow := ⟨3, none, none, none, none⟩

/-- Fixture: a tag-summary row with 1 accepted of 4 total. -/
def tagDp : TagRow := ⟨some "dp", .val 1, .val 4, .nan⟩

/-- Fixture: a tag-summary row with 0 accepted of 0 total. -/
def tagGreedy : TagRow := ⟨some "greedy", .val 0, .val 0, .nan⟩

/-- Fixture: a leaderboard row with the given solve count. -/
def lbN (i : ℕ) : LBRow := ⟨some ("u" ++ toString i), i, 0, .val 0, .val 0⟩

/-- Fixture: eleven leaderboard rows with solve counts 1..11. -/
def rows11 : List LBRow :=
  [lbN 1, lbN 2, lbN 3, lbN 4, lbN 5, lbN 6, lbN 7, lbN 8, lbN 9, lbN 10, lbN 11]

/-- Fixture: a database where every read fails with the message "down". -/
def dbDown : DB :=
  ⟨.error "down", .error "down", .error "down", .error "down", .error "down",
   .error "down", .error "down", .error "down", fun _ => .error "down",
   .error "down", .error "down"⟩

/-- C1.  The claim says both fallbacks compute the missing derived column
from its two source columns as `accepted/total * 100`.  The Leaderboard
fallback does not: with source columns 1 accepted of 2 total (claimed rule
gives 50) it writes the constant 0. -/
theorem C1_counterexample :
    ((lbAccuracyFallback ⟨[lbNoAcc], false⟩).rows.map fun r => r.accuracy) = [0]
    ∧ specDerivedRate (.val 1) (.val 2) = .val 50
    ∧ (0 : ℚ) ≠ 50 := by
  refine ⟨rfl, ?_, by norm_num⟩
  simp only [specDerivedRate]
  norm_num

/-- C1 (amended).  When `accuracy` is missing from the Leaderboard result it
is set to the constant 0, ignoring source columns; when `accepted_rate` is
missing from the Tag Analysis result it is computed as
`accepted/total * 100` (with `0/0` filled to 0) when both source columns are
present, and set to the constant 0 otherwise. -/
theorem C1_amended (t : LBFrame) (g : TagFrame)
    (ht : t.hasAccuracy = false) (hg : g.hasRate = false) :
    ((lbAccuracyFallback t).rows.map fun r => r.accuracy) = t.rows.map (fun _ => (0 : ℚ))
    ∧ ((g.hasAcceptedCol && g.hasTotalCol) = true →
        ((tagRateFallback g).rows.map fun r => r.accepted_rate)
          = g.rows.map fun r => tagPandasRate r.accepted_submissions r.total_submissions)
    ∧ ((g.hasAcceptedCol && g.hasTotalCol) = false →
        ((tagRateFallback g).rows.map fun r => r.accepted_rate)
          = g.rows.map fun _ => PFloat.val 0)
    ∧ (∀ a b : ℚ, b ≠ 0 → tagPandasRate (.val a) (.val b) = .val (a / b * 100))
    ∧ tagPandasRate (.val 0) (.val 0) = .val 0 := by
  refine ⟨?_, ?_, ?_, ?_, by simp [tagPandasRate, pdDiv, fillna, mul100]⟩
  · unfold lbAccuracyFallback
    rw [ht]
    simp only [Bool.false_eq_true, if_false, List.map_map]
    rfl
  · intro hcols
    unfold tagRateFallback
    rw [hg, hcols]
    simp only [Bool.false_eq_true, if_false, if_true, List.map_map]
    rfl
  · intro hcols
    unfold tagRateFallback
    rw [hg, hcols]
    simp only [Bool.false_eq_true, if_false, List.map_map]
    rfl
  · intro a b hb
    simp [tagPandasRate, pdDiv, fillna, mul100, hb]

/-- C1 (witness): the amended statement evaluated at one-row frames. -/
theorem C1_witness :
    ((lbAccuracyFallback ⟨[lbNoAcc], false⟩).rows.map fun r => r.accuracy) = [0]
    ∧ ((tagRateFallback ⟨[tagDp], false, true, true⟩).rows.map fun r => r.accepted_rate)
        = [tagPandasRate (.val 1) (.val 4)]
    ∧ tagPandasRate (.val 1) (.val 4) = .val (1 / 4 * 100) := by
  have h := C1_amended ⟨[lbNoAcc], false⟩ ⟨[tagDp], false, true, true⟩ rfl rfl
  exact ⟨h.1, h.2.1 rfl, h.2.2.2.1 1 4 (by norm_num)⟩

/-- C2.  The claim says both rate computations return exactly
`accepted/total*100` for positive totals and 0 for a zero total.  The
Dashboard rounds to two decimals (1 of 3 gives 33.33, not 100/3), and the
Tag Analysis computation at `accepted=1, total=0` gives +infinity, not 0. -/
theorem C2_counterexample :
    dashboardRate 1 3 = 3333 / 100
    ∧ (1 : ℚ) / 3 * 100 ≠ 3333 / 100
    ∧ tagPandasRate (.val 1) (.val 0) = .pinf
    ∧ PFloat.pinf ≠ PFloat.val 0 := by
  refine ⟨?_, by norm_num, ?_, by simp⟩
  · have hf : ⌊(1 : ℚ) / 3 * 100 * 100⌋ = 3333 := by
      rw [Int.floor_eq_iff]
      norm_num
    have hr : (1 : ℚ) / 3 * 100 * 100 - ((3333 : ℤ) : ℚ) < 1 / 2 := by norm_num
    simp only [dashboardRate, round2, roundHalfEven]
    norm_num [hf, hr]
  · simp [tagPandasRate, pdDiv, fillna, mul100]

/-- C2 (amended).  Dashboard: a zero total gives 0 with no division; a
positive total gives `accepted/total*100` rounded to two decimal places
(ties to even), not the exact value.  Tag Analysis: a positive total gives
exactly `accepted/total*100`; `accepted=0, total=0` gives 0 (the NaN from
0/0 is filled with 0); `accepted>0, total=0` gives +infinity. -/
theorem C2_amended (a s : ℕ) (aq t : ℚ) :
    (s = 0 → dashboardRate a s = 0)
    ∧ (0 < s → dashboardRate a s = round2 ((a : ℚ) / (s : ℚ) * 100))
    ∧ (0 < t → tagPandasRate (.val aq) (.val t) = .val (aq / t * 100))
    ∧ tagPandasRate (.val 0) (.val 0) = .val 0
    ∧ (0 < aq → tagPandasRate (.val aq) (.val 0) = .pinf) := by
  refine ⟨?_, ?_, ?_, by simp [tagPandasRate, pdDiv, fillna, mul100], ?_⟩
  · intro h
    simp [dashboardRate, h]
  · intro h
    simp [dashboardRate, h.ne']
  · intro h
    simp [tagPandasRate, pdDiv, fillna, mul100, h.ne']
  · intro h
    simp [tagPandasRate, pdDiv, fillna, mul100, h.ne', h]

/-- C2 (witness): the amended statement evaluated at concrete counts. -/
theorem C2_witness :
    dashboardRate 2 0 = 0
    ∧ dashboardRate 2 4 = round2 ((2 : ℚ) / 4 * 100)
    ∧ tagPandasRate (.val 1) (.val 4) = .val (1 / 4 * 100)
    ∧ tagPandasRate (.val 3) (.val 0) = .pinf := by
  exact ⟨(C2_amended 2 0 1 4).1 rfl,
         (C2_amended 2 4 1 4).2.1 (by norm_num),
         (C2_amended 2 4 1 4).2.2.1 (by norm_num),
         (C2_amended 2 4 3 4).2.2.2.2 (by norm_num)⟩

/-- C3.  Both write paths run inside the `engine.begin()` transaction: on a
statement failure the store is returned unchanged (rollback) and the handler
reports the underlying database error message; on success the committed
state is returned with the success message. -/
theorem C3_write_transactional (stmt : Store → Except String Store) (s : Store) :
    (∀ e, stmt s = .error e →
      submitOutcome stmt s = (s, "Failed to insert submission: " ++ e)
      ∧ adminOutcome stmt s = (s, "Failed to run stored procedure: " ++ e))
    ∧ (∀ s2, stmt s = .ok s2 →
      submitOutcome stmt s
          = (s2, "Submission recorded — triggers will update counts and audit_log.")
      ∧ adminOutcome stmt s
          = (s2, "Stored procedure executed — user_tag_stats updated.")) := by
  constructor
  · intro e he
    exact ⟨by simp [submitOutcome, runWrite, he], by simp [adminOutcome, runWrite, he]⟩
  · intro s2 hs
    exact ⟨by simp [submitOutcome, runWrite, hs], by simp [adminOutcome, runWrite, hs]⟩

/-- C3 (witness): a constraint-violating statement leaves the empty store
unchanged and reports the database's message; a successful insert commits. -/
theorem C3_witness :
    submitOutcome (fun _ => .error "Duplicate entry") ⟨[]⟩
        = (⟨[]⟩, "Failed to insert submission: Duplicate entry")
    ∧ adminOutcome (fun _ => .error "Duplicate entry") ⟨[]⟩
        = (⟨[]⟩, "Failed to run stored procedure: Duplicate entry") := by
  exact (C3_write_transactional (fun _ => .error "Duplicate entry") ⟨[]⟩).1
    "Duplicate entry" rfl

/-- C8.  Reads are never cached: `query_sql` reads the current store, so a
committed insert is visible to the next read of `Submissions`, which
includes the newly written row. -/
theorem C8_read_after_write (s : Store) (r : SubmissionRow) :
    ((runWrite (insertSubmission r) s).1).submissions = s.submissions ++ [r]
    ∧ r ∈ querySubmissions ((runWrite (insertSubmission r) s).1)
    ∧ (runWrite (insertSubmission r) s).2 = none := by
  refine ⟨rfl, ?_, rfl⟩
  simp [querySubmissions, runWrite, insertSubmission]

/-- On a pattern with no `.`, the compiled matcher at one position is the
case-insensitive prefix test. -/
theorem matchHere_nodot :
    ∀ (p : List Char), '.' ∉ p → ∀ s,
      matchHere (p.map fun c => if c = '.' then none else some c) s = prefixCI p s := by
  intro p
  induction p with
  | nil =>
    intro _ s
    cases s <;> rfl
  | cons a ps ih =>
    intro hp s
    have ha : ¬a = '.' := fun e => hp (by simp [e])
    have hps : '.' ∉ ps := fun m => hp (List.mem_cons_of_mem _ m)
    cases s with
    | nil => simp [matchHere, prefixCI, ha]
    | cons c cs => simp [matchHere, prefixCI, ha, tokMatch, ih hps cs]

/-- On a pattern with no `.`, regex search is the case-insensitive substring
test. -/
theorem reSearch_nodot (p : List Char) (hp : '.' ∉ p) :
    ∀ s, reSearch (p.map fun c => if c = '.' then none else some c) s = substrCI p s := by
  intro s
  induction s with
  | nil => simp [reSearch, substrCI, matchHere_nodot p hp]
  | cons c cs ih => simp [reSearch, substrCI, matchHere_nodot p hp, ih]

/-- The prefix test succeeds exactly when the lowercased pattern is a prefix
of the lowercased text. -/
theorem prefixCI_iff :
    ∀ (p s : List Char), prefixCI p s = true ↔ ∃ t, lowerList s = lowerList p ++ t := by
  intro p
  induction p with
  | nil =>
    intro s
    simp [prefixCI, lowerList]
  | cons a ps ih =>
    intro s
    cases s with
    | nil => simp [prefixCI, lowerList]
    | cons c cs =>
      simp only [prefixCI, lowerList, List.map_cons, List.cons_append,
        Bool.and_eq_true, decide_eq_true_eq, List.cons.injEq]
      rw [ih cs]
      constructor
      · rintro ⟨h1, t, ht⟩
        exact ⟨t, h1.symm, by simpa [lowerList] using ht⟩
      · rintro ⟨t, h1, ht⟩
        exact ⟨h1.symm, t, by simpa [lowerList] using ht⟩

/-- The substring test succeeds exactly when the lowercased pattern occurs
inside the lowercased text. -/
theorem substrCI_iff (p : List Char) :
    ∀ s, substrCI p s = true ↔ ∃ pre post, lowerList s = pre ++ lowerList p ++ post := by
  intro s
  induction s with
  | nil =>
    simp only [substrCI]
    rw [prefixCI_iff]
    constructor
    · rintro ⟨t, ht⟩
      exact ⟨[], t, by simpa using ht⟩
    · rintro ⟨pre, post, h⟩
      have h2 : pre ++ lowerList p ++ post = [] := by simpa [lowerList] using h.symm
      rcases List.append_eq_nil.mp h2 with ⟨h3, h4⟩
      rcases List.append_eq_nil.mp h3 with ⟨_, h5⟩
      have hp : p = [] := by
        have h6 : p.map Char.toLower = [] := by simpa [lowerList] using h5
        exact List.map_eq_nil_iff.mp h6
      exact ⟨[], by simp [lowerList, hp]⟩
  | cons c cs ih =>
    simp only [substrCI, Bool.or_eq_true]
    rw [prefixCI_iff, ih]
    constructor
    · rintro (⟨t, ht⟩ | ⟨pre, post, h⟩)
      · exact ⟨[], t, by simpa using ht⟩
      · refine ⟨c.toLower :: pre, post, ?_⟩
        simp only [lowerList, List.map_cons, List.cons_append]
        simpa [lowerList] using h
    · rintro ⟨pre, post, h⟩
      cases pre with
      | nil =>
        left
        exact ⟨post, by simpa using h⟩
      | cons x pre2 =>
        right
        refine ⟨pre2, post, ?_⟩
        simp only [lowerList, List.map_cons, List.cons_append, List.cons.injEq] at h
        simpa [lowerList] using h.2

/-- C4.  The claim says text filtering is case-insensitive substring
matching, but `str.contains` defaults to regex matching: the search text
"a." retains the row with username "ab", although "a." is not a substring
of "ab". -/
theorem C4_counterexample :
    leaderboardFilter "a." [⟨some "ab", 3, 50, .val 1, .val 2⟩]
        = [⟨some "ab", 3, 50, .val 1, .val 2⟩]
    ∧ substrCI "a.".toList "ab".toList = false := by
  constructor <;> rfl

/-- C4 (amended).  Text filtering treats the search text as a
case-insensitive regular expression and excludes rows with a null value;
for a search text free of regex metacharacters this coincides, on both the
Leaderboard username filter and the Problems title filter, with
case-insensitive substring matching. -/
theorem C4_amended (pat : String) (hne : pat ≠ "")
    (hmeta : ∀ c ∈ pat.toList, isMeta c = false)
    (lrows : List LBRow) (prows : List PRow) :
    leaderboardFilter pat lrows
      = lrows.filter (fun r =>
          match r.username with
          | none => false
          | some u => substrCI pat.toList u.toList)
    ∧ problemsTitleFilter pat prows
      = prows.filter (fun r =>
          match r.title with
          | none => false
          | some t => substrCI pat.toList t.toList)
    ∧ (∀ s : List Char, substrCI pat.toList s = true ↔
        ∃ pre post, lowerList s = pre ++ lowerList pat.toList ++ post) := by
  have hdot : '.' ∉ pat.toList := by
    intro hm
    have := hmeta '.' hm
    simp [isMeta] at this
  have hsearch : ∀ u : List Char, reSearch (parsePat pat) u = substrCI pat.toList u := by
    intro u
    exact reSearch_nodot pat.toList hdot u
  refine ⟨?_, ?_, fun s => substrCI_iff pat.toList s⟩
  · unfold leaderboardFilter
    rw [if_neg hne]
    apply List.filter_congr
    intro r _
    cases r.username <;> simp [hsearch]
  · unfold problemsTitleFilter
    rw [if_neg hne]
    apply List.filter_congr
    intro r _
    unfold titleHit
    cases r.title <;> simp [hsearch]

/-- C4 (witness): the search text "two" matches "TwoFan" and "Two Sum"
case-insensitively and excludes the rows with null username/title. -/
theorem C4_witness :
    leaderboardFilter "two" [lbU, lbNull] = [lbU]
    ∧ problemsTitleFilter "two" [pTwo, pNull] = [pTwo]
    ∧ (substrCI "two".toList "Two Sum".toList = true ↔
        ∃ pre post, lowerList "Two Sum".toList = pre ++ lowerList "two".toList ++ post) := by
  have h := C4_amended "two" (by decide) (by decide) [lbU, lbNull] [pTwo, pNull]
  exact ⟨h.1.trans (by rfl), h.2.1.trans (by rfl), h.2.2 "Two Sum".toList⟩

/-- C5.  The claim says every failing read surfaces as an inline error
scoped to its view's routine.  The Leaderboard read is not guarded: when
`vw_leaderboard` fails, the routine aborts with the uncaught exception
instead of producing a page with an inline error. -/
theorem C5_counterexample :
    renderLeaderboard dbDown "" = Except.error "down" := by
  rfl

/-- C5 (amended).  Only the Admin audit-log read is guarded, surfacing its
failure as an inline routine-scoped error box; a failing read in the
Dashboard, Leaderboard, Problems or Tag Analysis routine propagates as an
uncaught exception that aborts that routine's render. -/
theorem C5_amended (db : DB) (e searchText plat tag : String) :
    (db.audit_log = .error e →
      renderAdminAudit db = [El.errorBox ("Could not fetch audit log: " ++ e)])
    ∧ (db.vw_leaderboard = .error e → renderLeaderboard db searchText = .error e)
    ∧ (db.problemsJoin = .error e → renderProblems db plat tag searchText = .error e)
    ∧ (db.vw_tag_summary = .error e → renderTagAnalysis db tag = .error e)
    ∧ (db.usersCount = .error e → renderDashboard db = .error e) := by
  refine ⟨?_, ?_, ?_, ?_, ?_⟩ <;> intro h
  · simp [renderAdminAudit, h]
  · simp [renderLeaderboard, h, Except.bind]
  · simp only [renderProblems]
    rw [h]
    rfl
  · simp [renderTagAnalysis, h, Except.bind]
  · simp only [renderDashboard]
    rw [h]
    rfl

/-- C5 (witness): the amended statement on the all-failing database. -/
theorem C5_witness :
    renderAdminAudit dbDown = [El.errorBox "Could not fetch audit log: down"]
    ∧ renderLeaderboard dbDown "" = .error "down"
    ∧ renderProblems dbDown "All" "All" "" = .error "down"
    ∧ renderTagAnalysis dbDown "All" = .error "down"
    ∧ renderDashboard dbDown = .error "down" := by
  have h := C5_amended dbDown "down" "" "All" "All"
  exact ⟨h.1 rfl, h.2.1 rfl, h.2.2.1 rfl, h.2.2.2.1 rfl, h.2.2.2.2 rfl⟩

/-- C6.  For both category filters the sentinel "All" returns the table
unfiltered, and any other selection returns exactly the rows whose category
column equals the selected value (a null category never matches). -/
theorem C6_category_filters (sel : String) (prows : List PRow) (trows : List TagRow) :
    platformFilter "All" prows = prows
    ∧ tagSummaryFilter "All" trows = trows
    ∧ (sel ≠ "All" →
        platformFilter sel prows
            = prows.filter (fun r => decide (r.platform_name = some sel))
        ∧ (∀ r, r ∈ platformFilter sel prows ↔ r ∈ prows ∧ r.platform_name = some sel)
        ∧ tagSummaryFilter sel trows
            = trows.filter (fun r => decide (r.tag_name = some sel))
        ∧ (∀ r, r ∈ tagSummaryFilter sel trows ↔ r ∈ trows ∧ r.tag_name = some sel)) := by
  refine ⟨by simp [platformFilter], by simp [tagSummaryFilter], fun h => ⟨?_, ?_, ?_, ?_⟩⟩
  · simp [platformFilter, h]
  · intro r
    simp [platformFilter, h, List.mem_filter]
  · simp [tagSummaryFilter, h]
  · intro r
    simp [tagSummaryFilter, h, List.mem_filter]

/-- C6 (witness): the category filters evaluated on two-row tables with the
selection "LeetCode". -/
theorem C6_witness :
    platformFilter "All" [pTwo, pGraph] = [pTwo, pGraph]
    ∧ tagSummaryFilter "All" [tagDp, tagGreedy] = [tagDp, tagGreedy]
    ∧ platformFilter "LeetCode" [pTwo, pGraph] = [pTwo]
    ∧ (pTwo ∈ platformFilter "LeetCode" [pTwo, pGraph] ↔
        pTwo ∈ [pTwo, pGraph] ∧ pTwo.platform_name = some "LeetCode")
    ∧ tagSummaryFilter "LeetCode" [tagDp, tagGreedy] = [] := by
  have h := C6_category_filters "LeetCode" [pTwo, pGraph] [tagDp, tagGreedy]
  have h2 := h.2.2 (by decide)
  exact ⟨h.1, h.2.1, h2.1.trans (by rfl), h2.2.1 pTwo, h2.2.2.1.trans (by rfl)⟩

/-- C7.  The selected username and problem title are resolved to the
identifiers of the first matching rows of the lookup reads, and the insert
parameters carry exactly those identifiers together with the form fields. -/
theorem C7_resolution (upre urest : List UserRow) (u : UserRow)
    (ppre prest : List ProblemRef) (p : ProblemRef)
    (selUser selProblem verdict lang notes : String)
    (hu : u.username = selUser) (hup : ∀ v ∈ upre, v.username ≠ selUser)
    (hp : p.title = selProblem) (hpp : ∀ q ∈ ppre, q.title ≠ selProblem) :
    resolveUserId (upre ++ u :: urest) selUser = some u.user_id
    ∧ resolveProblemId (ppre ++ p :: prest) selProblem = some p.problem_id
    ∧ buildSubmissionInsert (upre ++ u :: urest) (ppre ++ p :: prest)
        selUser selProblem verdict lang notes
        = some ⟨u.user_id, p.problem_id, verdict, lang, notes⟩ := by
  have hru : resolveUserId (upre ++ u :: urest) selUser = some u.user_id := by
    unfold resolveUserId
    rw [List.filter_append]
    rw [List.filter_eq_nil_iff.mpr (by intro v hv; simpa using hup v hv)]
    simp [List.filter_cons, hu]
  have hrp : resolveProblemId (ppre ++ p :: prest) selProblem = some p.problem_id := by
    unfold resolveProblemId
    rw [List.filter_append]
    rw [List.filter_eq_nil_iff.mpr (by intro q hq; simpa using hpp q hq)]
    simp [List.filter_cons, hp]
  refine ⟨hru, hrp, ?_⟩
  unfold buildSubmissionInsert
  rw [hru, hrp]
  rfl

/-- C7 (witness): with duplicate display names "alice" and "Two Sum", the
first matching rows (user 2, problem 7) are the ones bound into the
insert. -/
theorem C7_witness :
    resolveUserId [⟨1, "bob"⟩, ⟨2, "alice"⟩, ⟨3, "alice"⟩] "alice" = some 2
    ∧ resolveProblemId [⟨7, "Two Sum"⟩, ⟨8, "Two Sum"⟩] "Two Sum" = some 7
    ∧ buildSubmissionInsert [⟨1, "bob"⟩, ⟨2, "alice"⟩, ⟨3, "alice"⟩]
        [⟨7, "Two Sum"⟩, ⟨8, "Two Sum"⟩] "alice" "Two Sum" "Accepted" "Python" ""
        = some ⟨2, 7, "Accepted", "Python", ""⟩ := by
  exact C7_resolution [⟨1, "bob"⟩] [⟨3, "alice"⟩] ⟨2, "alice"⟩ [] [⟨8, "Two Sum"⟩]
    ⟨7, "Two Sum"⟩ "alice" "Two Sum" "Accepted" "Python" "" rfl (by decide) rfl (by decide)

/-- C9.  The displayed leaderboard is the read result sorted by
`total_solved` descending with ties broken by `accuracy` descending, and the
Top Solvers chart takes at most 10 rows, each with a `total_solved` at least
that of every row left out. -/
theorem C9_leaderboard_order (rows : List LBRow) :
    List.Sorted lbRel (lbSorted rows)
    ∧ (lbSorted rows).Perm rows
    ∧ (topSolvers rows).length ≤ 10
    ∧ (∀ x ∈ topSolvers rows,
        ∀ y ∈ (List.insertionSort byTotal (lbSorted rows)).drop 10,
          y.total_solved ≤ x.total_solved)
    ∧ (topSolvers rows ++ (List.insertionSort byTotal (lbSorted rows)).drop 10).Perm rows := by
  have hs2 : List.Sorted byTotal (List.insertionSort byTotal (lbSorted rows)) :=
    List.sorted_insertionSort byTotal (lbSorted rows)
  have hp2 : (List.insertionSort byTotal (lbSorted rows)).Perm (lbSorted rows) :=
    List.perm_insertionSort byTotal (lbSorted rows)
  refine ⟨List.sorted_insertionSort lbRel rows, List.perm_insertionSort lbRel rows,
          ?_, ?_, ?_⟩
  · unfold topSolvers
    exact List.length_take_le 10 _
  · intro x hx y hy
    unfold topSolvers at hx
    exact hs2.rel_of_mem_take_of_mem_drop hx hy
  · unfold topSolvers
    rw [List.take_append_drop]
    exact hp2.trans (List.perm_insertionSort lbRel rows)

/-- C9 (witness): on eleven rows with solve counts 1..11, the top chart
keeps 10 rows, the row with count 11 is kept, the row with count 1 is
dropped and is below the kept one. -/
theorem C9_witness :
    lbN 11 ∈ topSolvers rows11
    ∧ lbN 1 ∈ (List.insertionSort byTotal (lbSorted rows11)).drop 10
    ∧ (lbN 1).total_solved ≤ (lbN 11).total_solved
    ∧ (topSolvers rows11).length ≤ 10 := by
  have h := C9_leaderboard_order rows11
  have hx : lbN 11 ∈ topSolvers rows11 := by decide
  have hy : lbN 1 ∈ (List.insertionSort byTotal (lbSorted rows11)).drop 10 := by decide
  exact ⟨hx, hy, h.2.2.2.1 (lbN 11) hx (lbN 1) hy, h.2.2.1⟩

/-- C10.  The Problems pipeline equals a single filter by the conjunction of
the three predicates — platform equality, tag membership, title search —
each conjunct true at its sentinel/empty value. -/
theorem C10_conjunctive_filters (plat tag searchText : String) (tagIds : List ℕ)
    (rows : List PRow) :
    problemsPipeline plat tag searchText tagIds rows
      = rows.filter (fun r =>
          (decide (plat = "All") || decide (r.platform_name = some plat))
          && (decide (tag = "All") || decide (r.problem_id ∈ tagIds))
          && (decide (searchText = "") || titleHit searchText r)) := by
  unfold problemsPipeline problemsTitleFilter tagIdFilter platformFilter
  by_cases h1 : plat = "All" <;> by_cases h2 : tag = "All" <;>
    by_cases h3 : searchText = "" <;>
      simp [h1, h2, h3, List.filter_filter, Bool.and_comm, Bool.and_left_comm]

end CPTracker
